import Mathlib

/-!
Shallow embedding of the spl-c-tokens prototype core: the instruction codec
(src/instruction.rs) and the state layout (src/state.rs). Byte buffers are
lists of natural numbers; Rust Result is Except; a Rust panic is modelled as
Option.none. Types from the crate modules proof.rs and error.rs are absent
from the sources and are modelled from the spec, as marked on each.
-/

namespace CToken

/-- Opaque 32-byte public key from the solana_program dependency; the wrapped
byte array is all the codec ever reads or writes. -/
structure Pubkey where
  bytes : List Nat
deriving DecidableEq

/-- Constructor Pubkey.new copies the given byte slice. -/
def Pubkey.new (key : List Nat) : Pubkey := ⟨key⟩

/-- Modelled from the spec: the error type (src/error.rs is absent from the
sources); only the variants the claims distinguish are represented. -/
inductive ProgramError where
  | invalidInstruction
  | invalidAccountData
  | borshDecodeFailed (msg : String)
deriving DecidableEq

/-- Little-endian 4-byte encoding used by Borsh for u32. -/
def u32ToLEBytes (n : Nat) : List Nat :=
  [n % 256, n / 256 % 256, n / 65536 % 256, n / 16777216 % 256]

/-- Little-endian 8-byte encoding used by Borsh for u64. -/
def u64ToLEBytes (n : Nat) : List Nat :=
  [n % 256, n / 256 % 256, n / 65536 % 256, n / 16777216 % 256,
   n / 4294967296 % 256, n / 1099511627776 % 256,
   n / 281474976710656 % 256, n / 72057594037927936 % 256]

/-- Value of a little-endian byte list. -/
def leBytesToNat (l : List Nat) : Nat :=
  l.foldr (fun b acc => b + 256 * acc) 0

/-- Borsh u32 reader: consumes 4 bytes from the front of the buffer. -/
def readU32 (buf : List Nat) : Option (Nat × List Nat) :=
  if 4 ≤ buf.length then some (leBytesToNat (buf.take 4), buf.drop 4) else none

/-- Borsh u64 reader: consumes 8 bytes from the front of the buffer. -/
def readU64 (buf : List Nat) : Option (Nat × List Nat) :=
  if 8 ≤ buf.length then some (leBytesToNat (buf.take 8), buf.drop 8) else none

/-- Borsh bool reader: one byte, 0 is false, 1 is true, anything else fails. -/
def readBool (buf : List Nat) : Option (Bool × List Nat) :=
  match buf with
  | 0 :: rest => some (false, rest)
  | 1 :: rest => some (true, rest)
  | _ => none

/-- Borsh bool writer: a single byte. -/
def boolToByte (b : Bool) : List Nat := [if b then 1 else 0]

/-- Modelled from the spec: MintData (src/proof.rs is absent from the
sources) — an opaque byte-array-backed proof payload; its canonical Borsh
form is that of a byte vector, a u32 length prefix followed by the bytes. -/
structure MintData where
  bytes : List Nat
deriving DecidableEq

/-- Borsh serialization of MintData as a length-prefixed byte vector. -/
def MintData.serializeBytes (d : MintData) : List Nat :=
  u32ToLEBytes d.bytes.length ++ d.bytes

/-- Borsh deserialization of MintData: length prefix, then that many bytes. -/
def MintData.deserializeBytes (buf : List Nat) : Option (MintData × List Nat) :=
  match readU32 buf with
  | some (n, rest) =>
      if n ≤ rest.length then some (⟨rest.take n⟩, rest.drop n) else none
  | none => none

/-- Borsh try_from_slice for MintData: deserialize and demand that the whole
input was consumed. -/
def MintData.tryFromSlice (buf : List Nat) : Option MintData :=
  match MintData.deserializeBytes buf with
  | some (d, []) => some d
  | _ => none

/-- Modelled from the spec: TransferData (src/proof.rs is absent from the
sources) — an opaque byte-array-backed proof payload, Borsh-encoded as a
length-prefixed byte vector. -/
structure TransferData where
  bytes : List Nat
deriving DecidableEq

/-- Borsh serialization of TransferData as a length-prefixed byte vector. -/
def TransferData.serializeBytes (d : TransferData) : List Nat :=
  u32ToLEBytes d.bytes.length ++ d.bytes

/-- Borsh deserialization of TransferData. -/
def TransferData.deserializeBytes (buf : List Nat) : Option (TransferData × List Nat) :=
  match readU32 buf with
  | some (n, rest) =>
      if n ≤ rest.length then some (⟨rest.take n⟩, rest.drop n) else none
  | none => none

/-- Borsh try_from_slice for TransferData. -/
def TransferData.tryFromSlice (buf : List Nat) : Option TransferData :=
  match TransferData.deserializeBytes buf with
  | some (d, []) => some d
  | _ => none

/-- The four operation variants of src/instruction.rs. -/
inductive CTokenInstruction where
  | initializeMint (mint_authority : Pubkey)
  | mint (mint_data : MintData)
  | transfer (transfer_data : TransferData)
  | closeAccount
deriving DecidableEq

/-- CTokenInstruction::unpack_pubkey (src/instruction.rs lines 130-138):
if at least 32 bytes remain, split off the first 32 as a key; otherwise
InvalidInstruction. -/
def CTokenInstruction.unpack_pubkey (input : List Nat) :
    Except ProgramError (Pubkey × List Nat) :=
  if 32 ≤ input.length then
    Except.ok (Pubkey.new (input.take 32), input.drop 32)
  else
    Except.error ProgramError.invalidInstruction

/-- CTokenInstruction::unpack (src/instruction.rs lines 85-102): split off the
tag byte (empty input is InvalidInstruction), then dispatch on the tag; tags
0, 1, 2 parse their payloads, every other tag is InvalidInstruction. -/
def CTokenInstruction.unpack (input : List Nat) :
    Except ProgramError CTokenInstruction :=
  match input with
  | [] => Except.error ProgramError.invalidInstruction
  | tag :: rest =>
    if tag = 0 then
      match CTokenInstruction.unpack_pubkey rest with
      | Except.ok (mint_authority, _) =>
          Except.ok (CTokenInstruction.initializeMint mint_authority)
      | Except.error e => Except.error e
    else if tag = 1 then
      match MintData.tryFromSlice rest with
      | some mint_data => Except.ok (CTokenInstruction.mint mint_data)
      | none => Except.error (ProgramError.borshDecodeFailed "mint data")
    else if tag = 2 then
      match TransferData.tryFromSlice rest with
      | some transfer_data => Except.ok (CTokenInstruction.transfer transfer_data)
      | none => Except.error (ProgramError.borshDecodeFailed "transfer data")
    else
      Except.error ProgramError.invalidInstruction

/-- CTokenInstruction::pack (src/instruction.rs lines 104-128): tag byte then
payload bytes for the first three variants; the source match has no arm for
CloseAccount (the wildcard arm does nothing), so CloseAccount leaves the
buffer empty. -/
def CTokenInstruction.pack : CTokenInstruction → List Nat
  | CTokenInstruction.initializeMint mint_authority => 0 :: mint_authority.bytes
  | CTokenInstruction.mint mint_data => 1 :: MintData.serializeBytes mint_data
  | CTokenInstruction.transfer transfer_data =>
      2 :: TransferData.serializeBytes transfer_data
  | CTokenInstruction.closeAccount => []

/-- Modelled from the spec: PedersenComm (src/proof.rs is absent from the
sources) — the 32-byte commitment, opaque byte-array-backed; derived Borsh
over a fixed 32-byte array reads and writes exactly 32 bytes. -/
structure PedersenComm where
  bytes : List Nat
deriving DecidableEq

/-- Borsh serialization of PedersenComm: the 32 raw bytes, no prefix. -/
def PedersenComm.serializeBytes (c : PedersenComm) : List Nat := c.bytes

/-- Borsh deserialization of PedersenComm: consume exactly 32 bytes. -/
def PedersenComm.deserializeBytes (buf : List Nat) :
    Option (PedersenComm × List Nat) :=
  if 32 ≤ buf.length then some (⟨buf.take 32⟩, buf.drop 32) else none

/-- New-type wrapper of Pubkey carrying the hand-written Borsh instances
(src/state.rs lines 91-119). -/
structure BorshPubkey where
  key : Pubkey
deriving DecidableEq

/-- BorshSerialize for BorshPubkey (src/state.rs lines 102-106): the body is
Ok(()) with nothing written, so serialization emits zero bytes. -/
def BorshPubkey.serializeBytes (_ : BorshPubkey) : List Nat := []

/-- BorshDeserialize for BorshPubkey (src/state.rs lines 107-119): succeeds
exactly when the whole remaining buffer is 32 bytes long, wrapping those
bytes as the key; the buffer cursor is not advanced. Any other length is a
length-mismatch error (modelled as none). -/
def BorshPubkey.deserializeBytes (buf : List Nat) :
    Option (BorshPubkey × List Nat) :=
  if buf.length = 32 then some (⟨Pubkey.new buf⟩, buf) else none

/-- Mint record (src/state.rs lines 21-28): authority, supply, init flag. -/
structure Mint where
  mint_authority : BorshPubkey
  supply : Nat
  is_initialized : Bool
deriving DecidableEq

/-- Canonical encoded length declared for Mint (src/state.rs line 36). -/
def Mint.LEN : Nat := 41

/-- IsInitialized for Mint reads the flag field. -/
def Mint.isInitializedPred (m : Mint) : Bool := m.is_initialized

/-- Derived BorshSerialize for Mint: fields in declaration order, so the
zero-byte key adapter, then the u64 supply, then the bool flag. -/
def Mint.serializeBytes (m : Mint) : List Nat :=
  BorshPubkey.serializeBytes m.mint_authority ++
    u64ToLEBytes m.supply ++ boolToByte m.is_initialized

/-- Derived BorshDeserialize for Mint: fields in declaration order. -/
def Mint.deserializeBytes (buf : List Nat) : Option (Mint × List Nat) :=
  match BorshPubkey.deserializeBytes buf with
  | none => none
  | some (auth, rest1) =>
    match readU64 rest1 with
    | none => none
    | some (s, rest2) =>
      match readBool rest2 with
      | none => none
      | some (b, rest3) => some (⟨auth, s, b⟩, rest3)

/-- Borsh try_from_slice for Mint: full consumption required. -/
def Mint.tryFromSlice (buf : List Nat) : Option Mint :=
  match Mint.deserializeBytes buf with
  | some (m, []) => some m
  | _ => none

/-- Mint::unpack_from_slice (src/state.rs lines 37-43): try_from_slice, with
any failure mapped to InvalidAccountData. -/
def Mint.unpack_from_slice (src : List Nat) : Except ProgramError Mint :=
  match Mint.tryFromSlice src with
  | some m => Except.ok m
  | none => Except.error ProgramError.invalidAccountData

/-- Mint::pack_into_slice (src/state.rs lines 44-51):
dst.copy_from_slice(try_to_vec) — copy_from_slice panics (modelled none)
unless the destination and the serialized vector have equal length;
otherwise the destination becomes the serialized bytes. -/
def Mint.pack_into_slice (m : Mint) (dst : List Nat) : Option (List Nat) :=
  let v := Mint.serializeBytes m
  if dst.length = v.length then some v else none

/-- Account record (src/state.rs lines 57-65): mint key, init flag,
commitment — in that field order. -/
structure Account where
  mint : BorshPubkey
  is_initialized : Bool
  comm : PedersenComm
deriving DecidableEq

/-- Canonical encoded length declared for Account (src/state.rs line 72). -/
def Account.LEN : Nat := 65

/-- IsInitialized for Account reads the flag field. -/
def Account.isInitializedPred (a : Account) : Bool := a.is_initialized

/-- Derived BorshSerialize for Account: zero-byte key adapter, then the bool
flag, then the 32-byte commitment. -/
def Account.serializeBytes (a : Account) : List Nat :=
  BorshPubkey.serializeBytes a.mint ++
    boolToByte a.is_initialized ++ PedersenComm.serializeBytes a.comm

/-- Derived BorshDeserialize for Account: fields in declaration order. -/
def Account.deserializeBytes (buf : List Nat) : Option (Account × List Nat) :=
  match BorshPubkey.deserializeBytes buf with
  | none => none
  | some (mintKey, rest1) =>
    match readBool rest1 with
    | none => none
    | some (b, rest2) =>
      match PedersenComm.deserializeBytes rest2 with
      | none => none
      | some (c, rest3) => some (⟨mintKey, b, c⟩, rest3)

/-- Borsh try_from_slice for Account: full consumption required. -/
def Account.tryFromSlice (buf : List Nat) : Option Account :=
  match Account.deserializeBytes buf with
  | some (a, []) => some a
  | _ => none

/-- Account::unpack_from_slice (src/state.rs lines 73-79). -/
def Account.unpack_from_slice (src : List Nat) : Except ProgramError Account :=
  match Account.tryFromSlice src with
  | some a => Except.ok a
  | none => Except.error ProgramError.invalidAccountData

/-- Account::pack_into_slice (src/state.rs lines 80-87), panic as none. -/
def Account.pack_into_slice (a : Account) (dst : List Nat) : Option (List Nat) :=
  let v := Account.serializeBytes a
  if dst.length = v.length then some v else none

/-- Account reference of the execution environment: key plus the signer and
writable flags. -/
structure AccountMeta where
  pubkey : Pubkey
  is_signer : Bool
  is_writable : Bool
deriving DecidableEq

/-- AccountMeta::new: writable reference. -/
def AccountMeta.new (pk : Pubkey) (s : Bool) : AccountMeta := ⟨pk, s, true⟩

/-- AccountMeta::new_readonly: read-only reference. -/
def AccountMeta.new_readonly (pk : Pubkey) (s : Bool) : AccountMeta :=
  ⟨pk, s, false⟩

/-- Operation descriptor handed to the execution environment. -/
structure Instruction where
  program_id : Pubkey
  accounts : List AccountMeta
  data : List Nat
deriving DecidableEq

/-- Modelled from the spec: sysvar::rent::id(), an opaque constant key of the
external execution environment; only its identity matters here. -/
def rentSysvarId : Pubkey := Pubkey.new (List.replicate 32 6)

/-- Builder initialize_mint (src/instruction.rs lines 142-162). -/
def initialize_mint (c_token_program_id mint_pubkey mint_authority_pubkey :
    Pubkey) : Except ProgramError Instruction :=
  Except.ok
    { program_id := c_token_program_id
      accounts :=
        [AccountMeta.new mint_pubkey false,
         AccountMeta.new_readonly rentSysvarId false]
      data := CTokenInstruction.pack
        (CTokenInstruction.initializeMint mint_authority_pubkey) }

/-- Builder mint (src/instruction.rs lines 165-184). -/
def mint (c_token_program_id mint_pubkey account_pubkey signer_pubkey :
    Pubkey) (mint_data : MintData) : Except ProgramError Instruction :=
  Except.ok
    { program_id := c_token_program_id
      accounts :=
        [AccountMeta.new mint_pubkey false,
         AccountMeta.new account_pubkey false,
         AccountMeta.new_readonly signer_pubkey true]
      data := CTokenInstruction.pack (CTokenInstruction.mint mint_data) }

/-- Builder transfer (src/instruction.rs lines 187-204). -/
def transfer (c_token_program_id source_pubkey destination_pubkey : Pubkey)
    (transfer_data : TransferData) : Except ProgramError Instruction :=
  Except.ok
    { program_id := c_token_program_id
      accounts :=
        [AccountMeta.new source_pubkey false,
         AccountMeta.new destination_pubkey false]
      data := CTokenInstruction.pack (CTokenInstruction.transfer transfer_data) }

/-- The little-endian u32 encoding decodes to the value it came from. -/
theorem leBytesToNat_u32 (n : Nat) (h : n < 4294967296) :
    leBytesToNat (u32ToLEBytes n) = n := by
  simp [leBytesToNat, u32ToLEBytes]
  omega

/-- Borsh round trip for the spec-modelled byte-vector payload MintData. -/
theorem mintData_tryFromSlice_serialize (d : MintData)
    (h : d.bytes.length < 4294967296) :
    MintData.tryFromSlice (MintData.serializeBytes d) = some d := by
  have hlen : (u32ToLEBytes d.bytes.length).length = 4 := by simp [u32ToLEBytes]
  have htake : (u32ToLEBytes d.bytes.length ++ d.bytes).take 4 =
      u32ToLEBytes d.bytes.length := by
    rw [← hlen]; exact List.take_left _ _
  have hdrop : (u32ToLEBytes d.bytes.length ++ d.bytes).drop 4 = d.bytes := by
    rw [← hlen]; exact List.drop_left _ _
  simp [MintData.tryFromSlice, MintData.deserializeBytes,
        MintData.serializeBytes, readU32, hlen, htake, hdrop,
        leBytesToNat_u32 _ h]

/-- Borsh round trip for the spec-modelled byte-vector payload TransferData. -/
theorem transferData_tryFromSlice_serialize (d : TransferData)
    (h : d.bytes.length < 4294967296) :
    TransferData.tryFromSlice (TransferData.serializeBytes d) = some d := by
  have hlen : (u32ToLEBytes d.bytes.length).length = 4 := by simp [u32ToLEBytes]
  have htake : (u32ToLEBytes d.bytes.length ++ d.bytes).take 4 =
      u32ToLEBytes d.bytes.length := by
    rw [← hlen]; exact List.take_left _ _
  have hdrop : (u32ToLEBytes d.bytes.length ++ d.bytes).drop 4 = d.bytes := by
    rw [← hlen]; exact List.drop_left _ _
  simp [TransferData.tryFromSlice, TransferData.deserializeBytes,
        TransferData.serializeBytes, readU32, hlen, htake, hdrop,
        leBytesToNat_u32 _ h]

/-- Claim C1, counterexample: round-tripping CloseAccount fails — pack emits
the empty buffer (the source match has no CloseAccount arm) and unpack of the
empty buffer is InvalidInstruction, not Ok(CloseAccount). -/
theorem c1_closeAccount_cex :
    CTokenInstruction.unpack (CTokenInstruction.pack
      CTokenInstruction.closeAccount) ≠
      Except.ok CTokenInstruction.closeAccount := by
  intro h
  exact Except.noConfusion h

/-- Claim C1, amended: unpack after pack is the identity on InitializeMint
with a 32-byte authority and on Mint and Transfer with payloads shorter than
2 to the 32 bytes; CloseAccount, which has no assigned tag, packs to the
empty buffer and its round trip fails with InvalidInstruction. -/
theorem c1_unpack_pack :
    (∀ pk : Pubkey, pk.bytes.length = 32 →
      CTokenInstruction.unpack (CTokenInstruction.pack
        (CTokenInstruction.initializeMint pk)) =
        Except.ok (CTokenInstruction.initializeMint pk)) ∧
    (∀ d : MintData, d.bytes.length < 4294967296 →
      CTokenInstruction.unpack (CTokenInstruction.pack
        (CTokenInstruction.mint d)) =
        Except.ok (CTokenInstruction.mint d)) ∧
    (∀ d : TransferData, d.bytes.length < 4294967296 →
      CTokenInstruction.unpack (CTokenInstruction.pack
        (CTokenInstruction.transfer d)) =
        Except.ok (CTokenInstruction.transfer d)) ∧
    CTokenInstruction.unpack (CTokenInstruction.pack
      CTokenInstruction.closeAccount) =
      Except.error ProgramError.invalidInstruction := by
  refine ⟨?_, ?_, ?_, rfl⟩
  · intro pk h
    have h32 : 32 ≤ pk.bytes.length := by omega
    simp [CTokenInstruction.pack, CTokenInstruction.unpack,
          CTokenInstruction.unpack_pubkey, h32]
    rw [← h, List.take_length]
    rfl
  · intro d h
    simp [CTokenInstruction.pack, CTokenInstruction.unpack,
          mintData_tryFromSlice_serialize d h]
  · intro d h
    simp [CTokenInstruction.pack, CTokenInstruction.unpack,
          transferData_tryFromSlice_serialize d h]

/-- Claim C1, witness: the amended round trip evaluated at concrete inputs
of each variant. -/
theorem c1_unpack_pack_witness :
    CTokenInstruction.unpack (CTokenInstruction.pack
      (CTokenInstruction.initializeMint (Pubkey.new (List.replicate 32 7)))) =
      Except.ok (CTokenInstruction.initializeMint
        (Pubkey.new (List.replicate 32 7))) ∧
    CTokenInstruction.unpack (CTokenInstruction.pack
      (CTokenInstruction.mint ⟨[1, 2, 3]⟩)) =
      Except.ok (CTokenInstruction.mint ⟨[1, 2, 3]⟩) ∧
    CTokenInstruction.unpack (CTokenInstruction.pack
      (CTokenInstruction.transfer ⟨[9]⟩)) =
      Except.ok (CTokenInstruction.transfer ⟨[9]⟩) :=
  ⟨c1_unpack_pack.1 _ (by simp [Pubkey.new]),
   c1_unpack_pack.2.1 ⟨[1, 2, 3]⟩ (by decide),
   c1_unpack_pack.2.2.1 ⟨[9]⟩ (by decide)⟩

/-- Claim C5, counterexample: pack of CloseAccount does not produce exactly
one byte. -/
theorem c5_pack_close_cex :
    (CTokenInstruction.pack CTokenInstruction.closeAccount).length ≠ 1 := by
  decide

/-- Claim C5, amended: pack of CloseAccount produces the empty byte vector,
zero bytes, because the source match has no arm for CloseAccount and no tag
value is assigned to it. -/
theorem c5_pack_close_empty :
    CTokenInstruction.pack CTokenInstruction.closeAccount = [] := rfl

/-- Claim C6: unpack of the empty buffer fails with InvalidInstruction, and
unpack of tag byte 0 followed by fewer than 32 bytes fails with
InvalidInstruction. -/
theorem c6_short_input_rejected (rest : List Nat) (h : rest.length < 32) :
    CTokenInstruction.unpack [] = Except.error ProgramError.invalidInstruction ∧
    CTokenInstruction.unpack (0 :: rest) =
      Except.error ProgramError.invalidInstruction := by
  refine ⟨rfl, ?_⟩
  simp [CTokenInstruction.unpack, CTokenInstruction.unpack_pubkey,
        Nat.not_le.mpr h]

/-- Claim C6, witness: the rejection evaluated at the empty payload. -/
theorem c6_short_input_rejected_witness :
    CTokenInstruction.unpack [] = Except.error ProgramError.invalidInstruction ∧
    CTokenInstruction.unpack [0] =
      Except.error ProgramError.invalidInstruction :=
  c6_short_input_rejected [] (by decide)

/-- Claim C7: any first byte outside the assigned tags 0, 1, 2 makes unpack
fail with InvalidInstruction, whatever bytes follow. -/
theorem c7_unknown_tag_rejected (t : Nat) (rest : List Nat)
    (h0 : t ≠ 0) (h1 : t ≠ 1) (h2 : t ≠ 2) :
    CTokenInstruction.unpack (t :: rest) =
      Except.error ProgramError.invalidInstruction := by
  simp [CTokenInstruction.unpack, h0, h1, h2]

/-- Claim C7, witness: tag 3 with a nonempty payload is rejected. -/
theorem c7_unknown_tag_rejected_witness :
    CTokenInstruction.unpack [3, 5, 5] =
      Except.error ProgramError.invalidInstruction :=
  c7_unknown_tag_rejected 3 [5, 5] (by decide) (by decide) (by decide)

/-- Claim C8: packing InitializeMint with key K yields byte 0 followed by the
32 bytes of K, and unpacking tag 0 with at least 32 remaining bytes yields
InitializeMint whose authority is the first 32 of those bytes, excess bytes
ignored. -/
theorem c8_initialize_mint_wire :
    (∀ K : List Nat, K.length = 32 →
      CTokenInstruction.pack (CTokenInstruction.initializeMint (Pubkey.new K)) =
        0 :: K) ∧
    (∀ rest : List Nat, 32 ≤ rest.length →
      CTokenInstruction.unpack (0 :: rest) =
        Except.ok (CTokenInstruction.initializeMint
          (Pubkey.new (rest.take 32)))) := by
  constructor
  · intro K _
    rfl
  · intro rest h
    simp [CTokenInstruction.unpack, CTokenInstruction.unpack_pubkey, h]

/-- Claim C8, witness: the wire format evaluated at a concrete key and at a
buffer with one excess byte. -/
theorem c8_initialize_mint_wire_witness :
    CTokenInstruction.pack (CTokenInstruction.initializeMint
      (Pubkey.new (List.replicate 32 5))) = 0 :: List.replicate 32 5 ∧
    CTokenInstruction.unpack (0 :: List.replicate 33 7) =
      Except.ok (CTokenInstruction.initializeMint
        (Pubkey.new ((List.replicate 33 7).take 32))) :=
  ⟨c8_initialize_mint_wire.1 _ (by simp),
   c8_initialize_mint_wire.2 _ (by simp)⟩

/-- Claim C2: evaluating the encode step shows the fixed-length invariant is
broken by the zero-byte key adapter — every Mint record serializes to 9
bytes, not 41, and every Account record with a 32-byte commitment serializes
to 33 bytes, not 65; pack_into_slice into a destination of the canonical
LEN therefore panics (modelled as none). -/
theorem c2_encode_length_defect :
    (∀ m : Mint, (Mint.serializeBytes m).length = 9 ∧
      Mint.pack_into_slice m (List.replicate 41 0) = none) ∧
    (∀ a : Account, a.comm.bytes.length = 32 →
      (Account.serializeBytes a).length = 33 ∧
      Account.pack_into_slice a (List.replicate 65 0) = none) := by
  constructor
  · intro m
    refine ⟨?_, ?_⟩
    · simp [Mint.serializeBytes, BorshPubkey.serializeBytes, u64ToLEBytes,
            boolToByte]
    · simp [Mint.pack_into_slice, Mint.serializeBytes,
            BorshPubkey.serializeBytes, u64ToLEBytes, boolToByte]
  · intro a h
    refine ⟨?_, ?_⟩
    · simp [Account.serializeBytes, BorshPubkey.serializeBytes,
            PedersenComm.serializeBytes, boolToByte, h]
    · simp [Account.pack_into_slice, Account.serializeBytes,
            BorshPubkey.serializeBytes, PedersenComm.serializeBytes,
            boolToByte, h]

/-- Claim C2, witness: the length defect evaluated at zeroed records. -/
theorem c2_encode_length_defect_witness :
    (Account.serializeBytes
      ⟨⟨Pubkey.new (List.replicate 32 0)⟩, false,
        ⟨List.replicate 32 0⟩⟩).length = 33 ∧
    Account.pack_into_slice
      ⟨⟨Pubkey.new (List.replicate 32 0)⟩, false, ⟨List.replicate 32 0⟩⟩
      (List.replicate 65 0) = none :=
  c2_encode_length_defect.2
    ⟨⟨Pubkey.new (List.replicate 32 0)⟩, false, ⟨List.replicate 32 0⟩⟩
    (by simp)

/-- Claim C3: decoding the 65-byte all-zero buffer as an Account does not
succeed — the key adapter demands the whole remaining buffer be exactly 32
bytes, sees 65, and fails, so unpack_from_slice is InvalidAccountData. -/
theorem c3_zero_account_decode_fails :
    Account.unpack_from_slice (List.replicate 65 0) =
      Except.error ProgramError.invalidAccountData := by
  have h : (List.replicate 65 0 : List Nat).length = 65 := by simp
  simp [Account.unpack_from_slice, Account.tryFromSlice,
        Account.deserializeBytes, BorshPubkey.deserializeBytes, h]

/-- Claim C4: the deserialize half holds — the key adapter decodes a buffer
exactly when it is 32 bytes long — but the serialize half is broken: it
emits zero bytes for every key, so decoding the 32-byte all-ones buffer and
re-encoding yields the empty buffer, not the original 32 bytes. -/
theorem c4_key_adapter_defect :
    (∀ buf : List Nat,
      (BorshPubkey.deserializeBytes buf).isSome ↔ buf.length = 32) ∧
    (∀ k : BorshPubkey, BorshPubkey.serializeBytes k = []) ∧
    BorshPubkey.deserializeBytes (List.replicate 32 1) =
      some (⟨Pubkey.new (List.replicate 32 1)⟩, List.replicate 32 1) ∧
    BorshPubkey.serializeBytes ⟨Pubkey.new (List.replicate 32 1)⟩ ≠
      List.replicate 32 1 := by
  refine ⟨?_, fun _ => rfl, ?_, by decide⟩
  · intro buf
    by_cases h : buf.length = 32 <;> simp [BorshPubkey.deserializeBytes, h]
  · simp [BorshPubkey.deserializeBytes]

/-- Claim C9: each builder emits its account references in the documented
order with the documented writable and signer flags: initialize_mint gives
the writable mint then the read-only rent sysvar; mint gives the writable
mint, the writable destination account, then the read-only signing
authority; transfer gives the writable source then the writable destination,
with no signer flag on any reference. -/
theorem c9_builder_account_order :
    (∀ pid mintPk authPk : Pubkey,
      ∃ ins : Instruction, initialize_mint pid mintPk authPk = Except.ok ins ∧
        ins.accounts.map AccountMeta.pubkey = [mintPk, rentSysvarId] ∧
        ins.accounts.map AccountMeta.is_writable = [true, false] ∧
        ins.accounts.map AccountMeta.is_signer = [false, false]) ∧
    (∀ pid mintPk acctPk signerPk : Pubkey, ∀ md : MintData,
      ∃ ins : Instruction, mint pid mintPk acctPk signerPk md = Except.ok ins ∧
        ins.accounts.map AccountMeta.pubkey = [mintPk, acctPk, signerPk] ∧
        ins.accounts.map AccountMeta.is_writable = [true, true, false] ∧
        ins.accounts.map AccountMeta.is_signer = [false, false, true]) ∧
    (∀ pid srcPk dstPk : Pubkey, ∀ td : TransferData,
      ∃ ins : Instruction, transfer pid srcPk dstPk td = Except.ok ins ∧
        ins.accounts.map AccountMeta.pubkey = [srcPk, dstPk] ∧
        ins.accounts.map AccountMeta.is_writable = [true, true] ∧
        ins.accounts.map AccountMeta.is_signer = [false, false]) := by
  refine ⟨?_, ?_, ?_⟩
  · intro pid mintPk authPk
    exact ⟨_, rfl, rfl, rfl, rfl⟩
  · intro pid mintPk acctPk signerPk md
    exact ⟨_, rfl, rfl, rfl, rfl⟩
  · intro pid srcPk dstPk td
    exact ⟨_, rfl, rfl, rfl, rfl⟩

/-- Claim C10: no buffer of the canonical record length ever decodes — every
41-byte slice is rejected by Mint::unpack_from_slice and every 65-byte slice
by Account::unpack_from_slice with InvalidAccountData, because the key
adapter requires the entire remaining buffer to be exactly 32 bytes. -/
theorem c10_canonical_length_rejected :
    (∀ src : List Nat, src.length = 41 →
      Mint.unpack_from_slice src =
        Except.error ProgramError.invalidAccountData) ∧
    (∀ src : List Nat, src.length = 65 →
      Account.unpack_from_slice src =
        Except.error ProgramError.invalidAccountData) := by
  constructor
  · intro src h
    simp [Mint.unpack_from_slice, Mint.tryFromSlice, Mint.deserializeBytes,
          BorshPubkey.deserializeBytes, h]
  · intro src h
    simp [Account.unpack_from_slice, Account.tryFromSlice,
          Account.deserializeBytes, BorshPubkey.deserializeBytes, h]

/-- Claim C10, witness: rejection evaluated at all-zero canonical buffers. -/
theorem c10_canonical_length_rejected_witness :
    Mint.unpack_from_slice (List.replicate 41 0) =
      Except.error ProgramError.invalidAccountData ∧
    Account.unpack_from_slice (List.replicate 65 1) =
      Except.error ProgramError.invalidAccountData :=
  ⟨c10_canonical_length_rejected.1 _ (by simp),
   c10_canonical_length_rejected.2 _ (by simp)⟩

end CToken
